import Mathlib

/-!
# Verification of the Playwright browser/session lifecycle manager

A shallow embedding of the browser/session lifecycle core of the
Playwright-WebSocket repository:

* the Session Store (`src/browser/session.ts`): file-keyed persistence of
  storage state, with existence, deletion, touching and listing;
* the Browser Pool and Context/Page Registry (`src/browser/manager.ts`):
  `getBrowser`, `createContext`, `getOrCreatePage`, `closeContext`;
* the Interactive Login Coordinator (`startLoginSession`);
* the External Browser Bridge (`getRealChromePage`, `getRealProfilePage`)
  and the unified acquisition path `getSharedPage` of the MCP HTTP facade
  (`src/mcp/streamable-http.ts`).

The browser engine (Playwright) is modelled as an explicit `World` state:
browsers, contexts and pages are identified by natural-number ids allocated
from a counter; the file system is an association list from paths to file
stats.  Effectful TypeScript functions become state-passing Lean functions on
`World`.  External, environment-dependent outcomes (whether `connectOverCDP`
succeeds, whether `page.goto` succeeds) are passed as explicit oracle
arguments.
-/

namespace PlaywrightWS

/-! ## Small string helpers (JS semantics) -/

/-- JS `s.startsWith(pre)`. -/
def strStartsWith (s pre : String) : Bool :=
  pre.toList.isPrefixOf s.toList

/-- JS `s.includes(pat)` (substring test). -/
def strIncludes (s pat : String) : Bool :=
  decide (pat.toList <:+: s.toList)

/-- JS truthiness of an optional string: `undefined` and the empty string are
falsy.  Used to compile conditions like `session ? … : …` and
`if (options.session && …)`. -/
def truthyStr : Option String → Option String
  | some s => if s.isEmpty then none else some s
  | none => none

/-! ## File system and Session Store (`src/browser/session.ts`)

Paths are relative to `config.sessionsDir` (a fixed directory, constant for a
run), so the directory prefix is dropped from the model. -/

/-- Serialized browser storage state (the part of a Playwright
`storageState` blob the specification talks about: cookies). -/
structure Cookie where
  name : String
  value : String
deriving DecidableEq, Repr

/-- A storage-state blob, as stored in a session file. -/
structure StorageState where
  cookies : List Cookie
deriving DecidableEq, Repr

def emptyStorage : StorageState := ⟨[]⟩

/-- What the file system records about one file: its content and its
creation/modification timestamps (`birthtime` / `mtime`). -/
structure FileStat where
  content : StorageState
  birthtime : Nat
  mtime : Nat
deriving DecidableEq, Repr

/-- The sessions directory: an association list from file name to stat. -/
def FS := List (String × FileStat)
deriving DecidableEq, Repr

def fsGet (fs : FS) (path : String) : Option FileStat :=
  List.lookup path fs

def fsErase (fs : FS) (path : String) : FS :=
  List.filter (fun e => e.1 != path) fs

/-- Writing a file: content replaced, `mtime` set to the current time,
`birthtime` preserved for an existing file and set to the current time for a
new one. -/
def fsWrite (fs : FS) (now : Nat) (path : String) (content : StorageState) : FS :=
  match fsGet fs path with
  | some st => (path, ⟨content, st.birthtime, now⟩) :: fsErase fs path
  | none => (path, ⟨content, now, now⟩) :: fsErase fs path

/-- `getSessionPath` of `session.ts`: deterministic file naming,
`<name>` to one storage file. -/
def getSessionPath (name : String) : String :=
  name ++ "-session.json"

/-- `sessionExists` of `session.ts`: file existence is session existence. -/
def sessionExists (fs : FS) (name : String) : Bool :=
  (fsGet fs (getSessionPath name)).isSome

/-- `deleteSession` of `session.ts`: unlink the file if it exists and report
whether it existed. -/
def deleteSession (fs : FS) (name : String) : FS × Bool :=
  let sessionPath := getSessionPath name
  if (fsGet fs sessionPath).isSome then
    (fsErase fs sessionPath, true)
  else
    (fs, false)

/-- `touchSession` of `session.ts`: `fs.utimesSync(path, now, now)` on an
existing file — update the modification time without rewriting content. -/
def touchSession (fs : FS) (now : Nat) (name : String) : FS :=
  let sessionPath := getSessionPath name
  if (fsGet fs sessionPath).isSome then
    List.map (fun e =>
      (e.1, if e.1 = sessionPath then { e.2 with mtime := now } else e.2)) fs
  else
    fs

/-- Saving a session, as done by `context.storageState({ path:
getSessionPath(name) })` in `saveLoginSession` / `closeLoginSession` of
`manager.ts`: the storage-state blob is written to the session file. -/
def saveSessionFile (fs : FS) (now : Nat) (name : String) (state : StorageState) : FS :=
  fsWrite fs now (getSessionPath name) state

/-- One record returned by `listSessions` of `session.ts`: `createdAt` is the
file's `birthtime`, `lastUsed` its `mtime`. -/
structure SessionData where
  name : String
  createdAt : Nat
  lastUsed : Nat
  filePath : String
deriving DecidableEq, Repr

/-- `listSessions` of `session.ts`: every `*-session.json` file in the
sessions directory, with timestamps reconstructed from file stats. -/
def listSessions (fs : FS) : List SessionData :=
  (List.filter (fun e => "-session.json".toList.isSuffixOf e.1.toList) fs).map
    (fun e =>
      ⟨e.1.dropRight "-session.json".length, e.2.birthtime, e.2.mtime, e.1⟩)

/-! ## Generic association-list lemmas -/

theorem lookup_cons_self {α β : Type} [BEq α] [LawfulBEq α] (k : α) (v : β)
    (l : List (α × β)) : List.lookup k ((k, v) :: l) = some v := by
  simp [List.lookup]

theorem lookup_filter_of_false {α β : Type} [BEq α] [LawfulBEq α]
    (p : α × β → Bool) (k : α) (l : List (α × β))
    (h : ∀ v, p (k, v) = false) :
    List.lookup k (List.filter p l) = none := by
  induction l with
  | nil => rfl
  | cons e t ih =>
    rcases e with ⟨a, b⟩
    by_cases hk : k = a
    · subst hk
      simp only [List.filter, h b]
      exact ih
    · simp only [List.filter]
      cases hp : p (a, b)
      · exact ih
      · simpa [List.lookup, beq_false_of_ne hk] using ih

theorem lookup_filter_of_true {α β : Type} [BEq α] [LawfulBEq α]
    (p : α × β → Bool) (k : α) (l : List (α × β))
    (h : ∀ v, p (k, v) = true) :
    List.lookup k (List.filter p l) = List.lookup k l := by
  induction l with
  | nil => rfl
  | cons e t ih =>
    rcases e with ⟨a, b⟩
    by_cases hk : k = a
    · subst hk
      simp only [List.filter, h b, List.lookup, beq_self_eq_true]
    · simp only [List.filter]
      cases hp : p (a, b)
      · simpa [List.lookup, beq_false_of_ne hk] using ih
      · simpa [List.lookup, beq_false_of_ne hk] using ih

theorem lookup_map_val {α β : Type} [BEq α] [LawfulBEq α]
    (g : α → β → β) (k : α) (l : List (α × β)) :
    List.lookup k (List.map (fun e => (e.1, g e.1 e.2)) l)
      = (List.lookup k l).map (g k) := by
  induction l with
  | nil => rfl
  | cons e t ih =>
    rcases e with ⟨a, b⟩
    by_cases hk : k = a
    · subst hk
      simp [List.lookup]
    · simpa [List.lookup, beq_false_of_ne hk] using ih

theorem lookup_isSome_of_mem {α β : Type} [BEq α] [LawfulBEq α]
    {k : α} {v : β} {l : List (α × β)} (h : (k, v) ∈ l) :
    (List.lookup k l).isSome = true := by
  induction l with
  | nil => cases h
  | cons e t ih =>
    rcases e with ⟨a, b⟩
    rcases List.mem_cons.mp h with heq | hmem
    · cases heq
      simp [List.lookup]
    · by_cases hk : k = a
      · subst hk
        simp [List.lookup]
      · simpa [List.lookup, beq_false_of_ne hk] using ih hmem

/-! ## The engine and manager state (`src/browser/manager.ts`)

`manager.ts` keeps module-level mutable state: the two pooled browsers, the
CDP-connected browser, the persistent-profile context, the context/page
registry maps and the active-login-session map.  Together with the engine's
own objects (browsers, contexts, pages) and the sessions directory this forms
one `World`.  Ids are allocated from `nextId`; the id-indexed stores are
association lists with the newest entry in front, so enumeration in creation
order (Playwright's `browser.contexts()` / `context.pages()`) reverses the
filtered list. -/

/-- Engine data of one browsing context: the browser owning it (`none` for a
persistent context), the storage state it was seeded from, whether the
stealth init script was injected, and whether it is closed. -/
structure CtxData where
  browser : Option Nat
  seed : StorageState
  stealth : Bool
  closed : Bool
deriving DecidableEq, Repr

/-- Engine data of one page: owning context, current URL, closed flag. -/
structure PageData where
  ctx : Nat
  url : String
  closed : Bool
deriving DecidableEq, Repr

/-- One entry of `activeLoginSessions` in `manager.ts`
(interface `ActiveLoginSession`). -/
structure LoginSession where
  ctx : Nat
  page : Nat
  sessionName : String
deriving DecidableEq, Repr

/-- The whole mutable state: engine stores plus the module-level variables of
`manager.ts` and the sessions directory. `now` is the current clock value. -/
structure World where
  nextId : Nat
  browsers : List (Nat × Bool)
  ctxs : List (Nat × CtxData)
  pages : List (Nat × PageData)
  launches : Nat
  headlessBrowser : Option Nat
  headedBrowser : Option Nat
  connectedBrowser : Option Nat
  realChromeContext : Option Nat
  activeContexts : List (String × Nat)
  activePages : List (String × Nat)
  activeLoginSessions : List (String × LoginSession)
  fs : FS
  now : Nat
deriving DecidableEq, Repr

/-- A world with nothing launched, registered or saved: the state right after
the module is loaded. -/
def initialWorld : World where
  nextId := 0
  browsers := []
  ctxs := []
  pages := []
  launches := 0
  headlessBrowser := none
  headedBrowser := none
  connectedBrowser := none
  realChromeContext := none
  activeContexts := []
  activePages := []
  activeLoginSessions := []
  fs := []
  now := 0

/-- `browser.isConnected()`. A dangling id counts as disconnected. -/
def browserConnected (w : World) (b : Nat) : Bool :=
  (List.lookup b w.browsers).getD false

/-- `page.isClosed()`. A dangling id counts as closed. -/
def pageClosed (w : World) (p : Nat) : Bool :=
  ((List.lookup p w.pages).map PageData.closed).getD true

/-- Whether a context is closed. A dangling id counts as closed. -/
def ctxClosed (w : World) (c : Nat) : Bool :=
  ((List.lookup c w.ctxs).map CtxData.closed).getD true

/-- The storage state a context was created from. -/
def ctxSeed (w : World) (c : Nat) : StorageState :=
  ((List.lookup c w.ctxs).map CtxData.seed).getD emptyStorage

/-! ### Engine primitives -/

/-- `chromium.launch({headless, args: config.browserArgs, …})`: a fresh,
connected browser process.  This is the body of `launchBrowser` in
`manager.ts`; the fixed argument list does not affect the model state beyond
the launch itself, counted in `launches`. -/
def launchBrowser (w : World) (_headless : Bool) : World × Nat :=
  let b := w.nextId
  ({ w with
      nextId := b + 1
      browsers := (b, true) :: w.browsers
      launches := w.launches + 1 }, b)

/-- `browser.newContext(…)` with an optional `storageState` seed. -/
def newContext (w : World) (b : Option Nat) (seed : StorageState) : World × Nat :=
  let c := w.nextId
  ({ w with
      nextId := c + 1
      ctxs := (c, ⟨b, seed, false, false⟩) :: w.ctxs }, c)

/-- `context.addInitScript(getStealthScript())`. -/
def addInitScript (w : World) (c : Nat) : World :=
  { w with
      ctxs := List.map (fun e =>
        (e.1, if e.1 = c then { e.2 with stealth := true } else e.2)) w.ctxs }

/-- `context.newPage()`. -/
def newPage (w : World) (c : Nat) : World × Nat :=
  let p := w.nextId
  ({ w with
      nextId := p + 1
      pages := (p, ⟨c, "about:blank", false⟩) :: w.pages }, p)

/-- `context.close()`: the context and all of its pages become closed. -/
def closeCtx (w : World) (c : Nat) : World :=
  { w with
      ctxs := List.map (fun e =>
        (e.1, if e.1 = c then { e.2 with closed := true } else e.2)) w.ctxs
      pages := List.map (fun e =>
        (e.1, if e.2.ctx = c then { e.2 with closed := true } else e.2)) w.pages }

/-- `page.goto(url, …)` on success: the page now shows `url`. -/
def setPageUrl (w : World) (p : Nat) (url : String) : World :=
  { w with
      pages := List.map (fun e =>
        (e.1, if e.1 = p then { e.2 with url := url } else e.2)) w.pages }

/-- `chromium.launchPersistentContext(dir, …)`: a context owned by no pooled
browser. -/
def launchPersistentContext (w : World) : World × Nat :=
  newContext w none emptyStorage

/-! ### Browser Pool and Context/Page Registry -/

/-- `BrowserOptions` of `manager.ts`. -/
structure BrowserOptions where
  headless : Option Bool := none
  session : Option String := none
deriving DecidableEq, Repr

/-- `getContextKey` of `manager.ts`:
`session ? contextId + ":" + session : contextId` (JS truthiness, so an
empty-string session also falls to the bare `contextId`). -/
def getContextKey (contextId : String) (session : Option String) : String :=
  match truthyStr session with
  | some s => contextId ++ ":" ++ s
  | none => contextId

/-- `getBrowser` of `manager.ts`: one browser per mode, relaunched only when
absent or no longer connected. -/
def getBrowser (w : World) (headless : Bool) : World × Nat :=
  if headless then
    match w.headlessBrowser with
    | some b =>
      if browserConnected w b then (w, b)
      else
        let nb := (launchBrowser w true).2
        ({ (launchBrowser w true).1 with headlessBrowser := some nb }, nb)
    | none =>
      let nb := (launchBrowser w true).2
      ({ (launchBrowser w true).1 with headlessBrowser := some nb }, nb)
  else
    match w.headedBrowser with
    | some b =>
      if browserConnected w b then (w, b)
      else
        let nb := (launchBrowser w false).2
        ({ (launchBrowser w false).1 with headedBrowser := some nb }, nb)
    | none =>
      let nb := (launchBrowser w false).2
      ({ (launchBrowser w false).1 with headedBrowser := some nb }, nb)

/-- `createContext` of `manager.ts`: acquire the pooled browser for the mode;
if a truthy session name is given and its file exists, seed the new context
from the stored storage state and touch the session file, else create a bare
context; always inject the stealth init script. -/
def createContext (w : World) (opts : BrowserOptions) : World × Nat :=
  let headless := opts.headless.getD true
  let w1 := (getBrowser w headless).1
  let b := (getBrowser w headless).2
  match truthyStr opts.session with
  | some s =>
    if sessionExists w1.fs s then
      let seed := ((fsGet w1.fs (getSessionPath s)).map FileStat.content).getD emptyStorage
      let w2 := (newContext w1 (some b) seed).1
      let c := (newContext w1 (some b) seed).2
      let w3 := { w2 with fs := touchSession w2.fs w2.now s }
      (addInitScript w3 c, c)
    else
      let w2 := (newContext w1 (some b) emptyStorage).1
      let c := (newContext w1 (some b) emptyStorage).2
      (addInitScript w2 c, c)
  | none =>
    let w2 := (newContext w1 (some b) emptyStorage).1
    let c := (newContext w1 (some b) emptyStorage).2
    (addInitScript w2 c, c)

/-- `createPage` of `manager.ts`. -/
def createPage (w : World) (c : Nat) : World × Nat :=
  newPage w c

/-- Map-set with JS `Map.set` semantics: the key becomes bound to exactly
this value. -/
def alSet {β : Type} (k : String) (v : β) (l : List (String × β)) :
    List (String × β) :=
  (k, v) :: List.filter (fun e => e.1 != k) l

/-- Map-delete with JS `Map.delete` semantics. -/
def alErase {β : Type} (k : String) (l : List (String × β)) :
    List (String × β) :=
  List.filter (fun e => e.1 != k) l

/-- `getOrCreatePage` of `manager.ts`: look the cache key up in both maps;
when a context and an unclosed page are present return them, else create a
context and page and register them under the key. -/
def getOrCreatePage (w : World) (contextId : String) (opts : BrowserOptions) :
    World × Nat × Nat :=
  let cacheKey := getContextKey contextId opts.session
  let ctxEntry := List.lookup cacheKey w.activeContexts
  let pageEntry := List.lookup cacheKey w.activePages
  if ctxEntry.isNone || pageEntry.isNone
      || ((pageEntry.map (pageClosed w)).getD true) then
    let (w1, c) := createContext w opts
    let (w2, p) := createPage w1 c
    ({ w2 with
        activeContexts := alSet cacheKey c w2.activeContexts
        activePages := alSet cacheKey p w2.activePages }, c, p)
  else
    (w, ctxEntry.getD 0, pageEntry.getD 0)

/-- The key-match test of the no-session branch of `closeContext`:
`key === contextId || key.startsWith(contextId + ":")`. -/
def keyMatches (contextId k : String) : Bool :=
  k == contextId || strStartsWith k (contextId ++ ":")

/-- `closeContext` of `manager.ts`: with a truthy session, tear down exactly
the one matching entry (silently doing nothing if absent); without one, tear
down every entry whose key equals the contextId or starts with
`contextId + ":"`. -/
def closeContext (w : World) (contextId : String) (session : Option String) :
    World :=
  match truthyStr session with
  | some _ =>
    let cacheKey := getContextKey contextId session
    match List.lookup cacheKey w.activeContexts with
    | some c =>
      let w1 := closeCtx w c
      { w1 with
          activeContexts := alErase cacheKey w1.activeContexts
          activePages := alErase cacheKey w1.activePages }
    | none => w
  | none =>
    let victims := List.filter (fun e => keyMatches contextId e.1) w.activeContexts
    let w1 := victims.foldl (fun acc e => closeCtx acc e.2) w
    { w1 with
        activeContexts :=
          List.filter (fun e => !keyMatches contextId e.1) w1.activeContexts
        activePages :=
          List.filter (fun e => !(victims.map Prod.fst).contains e.1) w1.activePages }

/-- Well-formedness of a world: already-allocated ids lie below the
allocation counter.  Every state reachable from `initialWorld` satisfies it;
it rules out id collisions between live objects and fresh allocations. -/
def worldWF (w : World) : Bool :=
  w.ctxs.all (fun e => e.1 < w.nextId) &&
  w.pages.all (fun e => e.1 < w.nextId) &&
  w.browsers.all (fun e => e.1 < w.nextId) &&
  w.activeLoginSessions.all (fun e => e.2.ctx < w.nextId && e.2.page < w.nextId)

/-! ## Claim C3 -/

/-- C3. For every session name: `exists(name)` is true immediately after
`save(name, state)` and false immediately after `delete(name)`;
`delete(name)` returns exactly whether a record existed at call time, and
deleting a never-saved name returns `false` without raising an error (it is
the identity on the store paired with `false`). -/
theorem sessionStore_exists_save_delete :
    (∀ (fs : FS) (now : Nat) (name : String) (state : StorageState),
      sessionExists (saveSessionFile fs now name state) name = true) ∧
    (∀ (fs : FS) (name : String),
      sessionExists (deleteSession fs name).1 name = false) ∧
    (∀ (fs : FS) (name : String),
      (deleteSession fs name).2 = sessionExists fs name) ∧
    (∀ (fs : FS) (name : String),
      sessionExists fs name = false → deleteSession fs name = (fs, false)) := by
  refine ⟨?_, ?_, ?_, ?_⟩
  · intro fs now name state
    unfold sessionExists saveSessionFile fsWrite
    cases h : fsGet fs (getSessionPath name) <;>
      simp [h, fsGet, lookup_cons_self]
  · intro fs name
    unfold deleteSession
    by_cases h : (fsGet fs (getSessionPath name)).isSome = true
    · rw [if_pos h]
      unfold sessionExists fsGet fsErase
      rw [lookup_filter_of_false]
      · rfl
      · intro v; simp
    · rw [if_neg h]
      unfold sessionExists
      simpa using h
  · intro fs name
    unfold deleteSession
    by_cases h : (fsGet fs (getSessionPath name)).isSome = true
    · rw [if_pos h]
      unfold sessionExists
      exact h.symm
    · rw [if_neg h]
      unfold sessionExists
      simp only [Bool.not_eq_true] at h
      exact h.symm
  · intro fs name h
    unfold deleteSession
    unfold sessionExists at h
    simp [h]

/-- Witness for C3: concrete store, concrete names. -/
theorem sessionStore_exists_save_delete_witness :
    sessionExists (saveSessionFile [] 0 "demo" ⟨[⟨"a", "1"⟩]⟩) "demo" = true ∧
    deleteSession [] "ghost" = ([], false) := by
  exact ⟨sessionStore_exists_save_delete.1 [] 0 "demo" ⟨[⟨"a", "1"⟩]⟩,
    sessionStore_exists_save_delete.2.2.2 [] "ghost" (by rfl)⟩

/-! ## Further association-list helpers -/

theorem lookup_some_mem {α β : Type} [BEq α] [LawfulBEq α]
    {k : α} {v : β} {l : List (α × β)} (h : List.lookup k l = some v) :
    (k, v) ∈ l := by
  induction l with
  | nil => simp [List.lookup] at h
  | cons e t ih =>
    rcases e with ⟨a, b⟩
    by_cases hk : k = a
    · subst hk
      simp [List.lookup] at h
      simp [h]
    · simp only [List.lookup, beq_false_of_ne hk] at h
      exact List.mem_cons_of_mem _ (ih h)

theorem lookup_none_filter {α β : Type} [BEq α] [LawfulBEq α]
    (p : α × β → Bool) (k : α) (l : List (α × β))
    (h : List.lookup k l = none) :
    List.lookup k (List.filter p l) = none := by
  induction l with
  | nil => rfl
  | cons e t ih =>
    rcases e with ⟨a, b⟩
    by_cases hk : k = a
    · subst hk
      simp [List.lookup] at h
    · simp only [List.lookup, beq_false_of_ne hk] at h
      simp only [List.filter]
      cases hp : p (a, b)
      · exact ih h
      · simp only [List.lookup, beq_false_of_ne hk]
        exact ih h

theorem keys_contains_of_mem {α β : Type} [BEq α] [LawfulBEq α]
    {k : α} {v : β} {l : List (α × β)} (h : (k, v) ∈ l) :
    (l.map Prod.fst).contains k = true := by
  exact List.elem_eq_true_of_mem (List.mem_map.mpr ⟨(k, v), h, rfl⟩)

theorem mem_of_keys_contains {α β : Type} [BEq α] [LawfulBEq α]
    {k : α} {l : List (α × β)} (h : (l.map Prod.fst).contains k = true) :
    ∃ v, (k, v) ∈ l := by
  rcases List.mem_map.mp (List.mem_of_elem_eq_true h) with ⟨⟨a, b⟩, hmem, hk⟩
  exact ⟨b, by simpa [← hk] using hmem⟩

/-- Folding `closeCtx` over a list of registry entries changes neither
registry map. -/
theorem foldl_closeCtx_registry (l : List (String × Nat)) (w : World) :
    ((l.foldl (fun acc e => closeCtx acc e.2) w).activeContexts
        = w.activeContexts) ∧
    ((l.foldl (fun acc e => closeCtx acc e.2) w).activePages
        = w.activePages) := by
  induction l generalizing w with
  | nil => exact ⟨rfl, rfl⟩
  | cons e t ih => exact ⟨(ih (closeCtx w e.2)).1, (ih (closeCtx w e.2)).2⟩

/-! ## Registry reduction lemmas for `closeContext` without a session -/

theorem closeContext_none_activeContexts (w : World) (contextId : String) :
    (closeContext w contextId none).activeContexts
      = List.filter (fun e => !keyMatches contextId e.1) w.activeContexts := by
  show List.filter (fun e => !keyMatches contextId e.1)
      ((List.filter (fun e => keyMatches contextId e.1) w.activeContexts).foldl
        (fun acc e => closeCtx acc e.2) w).activeContexts = _
  rw [(foldl_closeCtx_registry _ w).1]

theorem closeContext_none_activePages (w : World) (contextId : String) :
    (closeContext w contextId none).activePages
      = List.filter (fun e =>
          !((List.filter (fun e => keyMatches contextId e.1) w.activeContexts).map
              Prod.fst).contains e.1) w.activePages := by
  show List.filter (fun e =>
      !((List.filter (fun e => keyMatches contextId e.1) w.activeContexts).map
          Prod.fst).contains e.1)
      ((List.filter (fun e => keyMatches contextId e.1) w.activeContexts).foldl
        (fun acc e => closeCtx acc e.2) w).activePages = _
  rw [(foldl_closeCtx_registry _ w).2]

/-- Decidable registry well-formedness: every key of the page map is also a
key of the context map.  `getOrCreatePage` and `closeContext` always update
the two maps together, so every reachable state satisfies this. -/
def registryWF (w : World) : Bool :=
  w.activePages.all (fun e => (List.lookup e.1 w.activeContexts).isSome)

/-! ## Claims C2 and C9

`getContextKey` encodes the pair `(contextId, session)` as a single string,
`contextId` or `contextId ++ ":" ++ session`; the encoding is not injective
when a contextId itself contains a colon. -/

/-- The registry state after registering an entry under contextId `"a:b"`
with no session. -/
def wColl : World := (getOrCreatePage initialWorld "a:b" {}).1

/-- Counterexample for C2.  The entry of `wColl` was registered under the
identity `(contextId := "a:b", no session)`.  `closeContext "a"` (no
session) nevertheless tears it down, because its cache key `"a:b"` starts
with `"a" ++ ":"` — so a registered key whose contextId component (`"a:b"`)
differs from the closed contextId (`"a"`) is *not* left untouched, refuting
the universally quantified part of the claim. -/
theorem closeContext_cross_contextId_counterexample :
    ("a:b" ≠ "a") ∧
    getContextKey "a:b" none = "a:b" ∧
    (List.lookup "a:b" wColl.activeContexts).isSome = true ∧
    List.lookup "a:b" (closeContext wColl "a" none).activeContexts = none ∧
    List.lookup "a:b" (closeContext wColl "a" none).activePages = none := by
  refine ⟨by decide, rfl, by decide, by decide, by decide⟩

/-- C2 (amended).  After `closeContext(contextId)` with no session, every
cache key equal to `contextId` or starting with `contextId ++ ":"` is absent
from both registry maps — in particular every key registered under the given
contextId (with any or no session) is gone — and every other cache key is
left untouched.  Keys registered under a *different* contextId are removed
exactly when their cache key collides with this pattern (contextIds
containing `":"`, see the counterexample).  Closing when nothing matches is
a silent no-op that leaves the whole state unchanged. -/
theorem closeContext_no_session_amended (w : World) (contextId : String)
    (hwf : registryWF w = true) :
    (∀ k, keyMatches contextId k = true →
        List.lookup k (closeContext w contextId none).activeContexts = none ∧
        List.lookup k (closeContext w contextId none).activePages = none) ∧
    (∀ k, keyMatches contextId k = false →
        List.lookup k (closeContext w contextId none).activeContexts
          = List.lookup k w.activeContexts ∧
        List.lookup k (closeContext w contextId none).activePages
          = List.lookup k w.activePages) ∧
    ((∀ e ∈ w.activeContexts, keyMatches contextId e.1 = false) →
        closeContext w contextId none = w) ∧
    (∀ s : Option String,
        keyMatches contextId (getContextKey contextId s) = true) := by
  refine ⟨?_, ?_, ?_, ?_⟩
  · intro k hk
    constructor
    · rw [closeContext_none_activeContexts]
      exact lookup_filter_of_false _ _ _ (fun v => by simp [hk])
    · rw [closeContext_none_activePages]
      cases hkp : List.lookup k w.activePages with
      | none => exact lookup_none_filter _ _ _ hkp
      | some pv =>
        have hmemP : (k, pv) ∈ w.activePages := lookup_some_mem hkp
        have hCs : (List.lookup k w.activeContexts).isSome = true := by
          have := List.all_eq_true.mp hwf _ hmemP
          simpa using this
        rcases Option.isSome_iff_exists.mp hCs with ⟨c, hc⟩
        have hmemC : (k, c) ∈ w.activeContexts := lookup_some_mem hc
        have hvict : (k, c) ∈
            List.filter (fun e => keyMatches contextId e.1) w.activeContexts :=
          List.mem_filter.mpr ⟨hmemC, by simpa using hk⟩
        have hcont := keys_contains_of_mem hvict
        exact lookup_filter_of_false _ _ _ (fun v => by
          show (!((List.filter (fun e => keyMatches contextId e.1)
              w.activeContexts).map Prod.fst).contains k) = false
          rw [hcont]
          rfl)
  · intro k hk
    constructor
    · rw [closeContext_none_activeContexts]
      exact lookup_filter_of_true _ _ _ (fun v => by simp [hk])
    · rw [closeContext_none_activePages]
      have hcont : ((List.filter (fun e => keyMatches contextId e.1)
          w.activeContexts).map Prod.fst).contains k = false := by
        by_contra hc
        rcases mem_of_keys_contains (Bool.of_not_eq_false hc) with ⟨v, hv⟩
        have := (List.mem_filter.mp hv).2
        simp [hk] at this
      exact lookup_filter_of_true _ _ _ (fun v => by
        show (!((List.filter (fun e => keyMatches contextId e.1)
            w.activeContexts).map Prod.fst).contains k) = true
        rw [hcont]
        rfl)
  · intro hnone
    have hv : List.filter (fun e => keyMatches contextId e.1) w.activeContexts
        = [] :=
      List.filter_eq_nil_iff.mpr (fun e he => by simp [hnone e he])
    have hself : List.filter (fun e => !keyMatches contextId e.1)
        w.activeContexts = w.activeContexts :=
      List.filter_eq_self.mpr (fun e he => by simp [hnone e he])
    simp only [closeContext, truthyStr, hv, List.foldl_nil, List.map_nil,
      hself]
    simp
  · intro s
    unfold keyMatches getContextKey
    cases hs : truthyStr s with
    | none => simp
    | some sv =>
      have : strStartsWith (contextId ++ ":" ++ sv) (contextId ++ ":") = true := by
        unfold strStartsWith
        exact List.isPrefixOf_iff_prefix.mpr ⟨sv.toList, rfl⟩
      simp [this]

/-- The registry state with entries under keys `"c1:s"` (contextId `"c1"`,
session `"s"`) and `"zz"` (contextId `"zz"`, no session). -/
def wTwoKeys : World :=
  (getOrCreatePage (getOrCreatePage initialWorld "c1" {session := some "s"}).1
    "zz" {}).1

/-- Witness for the amended C2: closing `"c1"` removes the `"c1:s"` entry
and leaves the `"zz"` entry untouched. -/
theorem closeContext_no_session_amended_witness :
    List.lookup "c1:s" (closeContext wTwoKeys "c1" none).activeContexts = none ∧
    List.lookup "c1:s" (closeContext wTwoKeys "c1" none).activePages = none ∧
    List.lookup "zz" (closeContext wTwoKeys "c1" none).activeContexts
      = List.lookup "zz" wTwoKeys.activeContexts := by
  have h := closeContext_no_session_amended wTwoKeys "c1" (by decide)
  exact ⟨(h.1 "c1:s" (by decide)).1, (h.1 "c1:s" (by decide)).2,
    (h.2.1 "zz" (by decide)).1⟩

/-- C9. The key encoding is not injective: contextId `"a:b"` with no session
and contextId `"a"` with session `"b"` produce the same cache key, so
`getOrCreatePage` resolves both identities to the same registry entry (the
second call returns the very context/page registered by the first, creating
nothing), and `closeContext("a", "b")` also tears down the entry that was
registered under `("a:b", no session)`. -/
theorem contextKey_collision :
    getContextKey "a:b" none = getContextKey "a" (some "b") ∧
    getOrCreatePage wColl "a" {session := some "b"}
      = (wColl, (getOrCreatePage initialWorld "a:b" {}).2) ∧
    List.lookup (getContextKey "a:b" none)
      (closeContext wColl "a" (some "b")).activeContexts = none ∧
    List.lookup (getContextKey "a:b" none)
      (closeContext wColl "a" (some "b")).activePages = none := by
  refine ⟨rfl, by decide, by decide, by decide⟩

/-! ## Claim C1 -/

/-- C1. If a context and a page are registered under the context key and the
page is not closed, `getOrCreatePage` returns exactly the registered pair and
leaves the whole state (and in particular the registry) unchanged; calling it
again returns the identical instances. -/
theorem getOrCreatePage_hot_path_idempotent (w : World) (contextId : String)
    (opts : BrowserOptions) (c p : Nat)
    (hc : List.lookup (getContextKey contextId opts.session) w.activeContexts
        = some c)
    (hp : List.lookup (getContextKey contextId opts.session) w.activePages
        = some p)
    (hopen : pageClosed w p = false) :
    getOrCreatePage w contextId opts = (w, c, p) ∧
    getOrCreatePage (getOrCreatePage w contextId opts).1 contextId opts
      = (w, c, p) := by
  have h1 : getOrCreatePage w contextId opts = (w, c, p) := by
    unfold getOrCreatePage
    simp [hc, hp, hopen]
  refine ⟨h1, ?_⟩
  rw [h1]
  exact h1

/-- Witness for C1: a freshly created registry entry is returned unchanged by
the next call. -/
theorem getOrCreatePage_hot_path_idempotent_witness :
    getOrCreatePage (getOrCreatePage initialWorld "c1" {}).1 "c1" {}
      = ((getOrCreatePage initialWorld "c1" {}).1, 1, 2) := by
  exact (getOrCreatePage_hot_path_idempotent
    (getOrCreatePage initialWorld "c1" {}).1 "c1" {} 1 2
    (by decide) (by decide) (by decide)).2.symm ▸
    (getOrCreatePage_hot_path_idempotent
      (getOrCreatePage initialWorld "c1" {}).1 "c1" {} 1 2
      (by decide) (by decide) (by decide)).1

/-! ## Claim C7 — the Browser Pool -/

/-- `getBrowser` never touches anything outside the pool slots, the browser
store and the launch/id counters. -/
theorem getBrowser_preserves (w : World) (hl : Bool) :
    (getBrowser w hl).1.fs = w.fs ∧ (getBrowser w hl).1.now = w.now ∧
    (getBrowser w hl).1.ctxs = w.ctxs ∧
    (getBrowser w hl).1.pages = w.pages ∧
    (getBrowser w hl).1.activeContexts = w.activeContexts ∧
    (getBrowser w hl).1.activePages = w.activePages ∧
    (getBrowser w hl).1.activeLoginSessions = w.activeLoginSessions := by
  unfold getBrowser launchBrowser
  split <;> (split <;> (try split)) <;>
    exact ⟨rfl, rfl, rfl, rfl, rfl, rfl, rfl⟩

/-- C7. The pool keeps at most one browser process per mode: the returned
process is always connected; calling `getBrowser` again for the same mode
returns the identical state and process (so the second of two consecutive
acquisitions performs no launch); one call launches at most once; a
connected registered process is returned with the state unchanged (no
launch); and when the mode's slot holds no connected process, exactly one
launch happens. -/
theorem getBrowser_pool (w : World) (m : Bool) :
    browserConnected (getBrowser w m).1 (getBrowser w m).2 = true ∧
    getBrowser (getBrowser w m).1 m = getBrowser w m ∧
    (getBrowser w m).1.launches ≤ w.launches + 1 ∧
    (∀ b, (if m then w.headlessBrowser else w.headedBrowser) = some b →
        browserConnected w b = true → getBrowser w m = (w, b)) ∧
    ((∀ b, (if m then w.headlessBrowser else w.headedBrowser) = some b →
        browserConnected w b = false) →
      (getBrowser w m).1.launches = w.launches + 1) := by
  cases m with
  | true =>
    cases hE : w.headlessBrowser with
    | some b0 =>
      by_cases hc : browserConnected w b0 = true
      · have hg : getBrowser w true = (w, b0) := by
          unfold getBrowser
          rw [hE]
          simp [hc]
        refine ⟨by rw [hg]; exact hc, by rw [hg]; exact hg,
          by rw [hg]; exact Nat.le_succ _, ?_, ?_⟩
        · intro b hb hcb
          rw [hg]
          have hb2 : b0 = b := by simpa using hb
          rw [hb2]
        · intro hall
          exact absurd hc (by simp [hall b0 (by simp)])
      · have hcf : browserConnected w b0 = false := by
          simpa using hc
        have hg : getBrowser w true
            = ({ w with
                  nextId := w.nextId + 1
                  browsers := (w.nextId, true) :: w.browsers
                  launches := w.launches + 1
                  headlessBrowser := some w.nextId }, w.nextId) := by
          unfold getBrowser launchBrowser
          rw [hE]
          simp [hcf]
        refine ⟨?_, ?_, by rw [hg], ?_, by intro _; rw [hg]⟩
        · rw [hg]
          unfold browserConnected
          rw [lookup_cons_self]
          rfl
        · rw [hg]
          unfold getBrowser
          simp [browserConnected, lookup_cons_self]
        · intro b hb hcb
          have hb2 : b0 = b := by simpa using hb
          rw [hb2] at hcf
          rw [hcb] at hcf
          cases hcf
    | none =>
      have hg : getBrowser w true
          = ({ w with
                nextId := w.nextId + 1
                browsers := (w.nextId, true) :: w.browsers
                launches := w.launches + 1
                headlessBrowser := some w.nextId }, w.nextId) := by
        unfold getBrowser launchBrowser
        rw [hE]
        rfl
      refine ⟨?_, ?_, by rw [hg], ?_, by intro _; rw [hg]⟩
      · rw [hg]
        unfold browserConnected
        rw [lookup_cons_self]
        rfl
      · rw [hg]
        unfold getBrowser
        simp [browserConnected, lookup_cons_self]
      · intro b hb hcb
        simp at hb
  | false =>
    cases hE : w.headedBrowser with
    | some b0 =>
      by_cases hc : browserConnected w b0 = true
      · have hg : getBrowser w false = (w, b0) := by
          unfold getBrowser
          rw [hE]
          simp [hc]
        refine ⟨by rw [hg]; exact hc, by rw [hg]; exact hg,
          by rw [hg]; exact Nat.le_succ _, ?_, ?_⟩
        · intro b hb hcb
          rw [hg]
          have hb2 : b0 = b := by simpa using hb
          rw [hb2]
        · intro hall
          exact absurd hc (by simp [hall b0 (by simp)])
      · have hcf : browserConnected w b0 = false := by
          simpa using hc
        have hg : getBrowser w false
            = ({ w with
                  nextId := w.nextId + 1
                  browsers := (w.nextId, true) :: w.browsers
                  launches := w.launches + 1
                  headedBrowser := some w.nextId }, w.nextId) := by
          unfold getBrowser launchBrowser
          rw [hE]
          simp [hcf]
        refine ⟨?_, ?_, by rw [hg], ?_, by intro _; rw [hg]⟩
        · rw [hg]
          unfold browserConnected
          rw [lookup_cons_self]
          rfl
        · rw [hg]
          unfold getBrowser
          simp [browserConnected, lookup_cons_self]
        · intro b hb hcb
          have hb2 : b0 = b := by simpa using hb
          rw [hb2] at hcf
          rw [hcb] at hcf
          cases hcf
    | none =>
      have hg : getBrowser w false
          = ({ w with
                nextId := w.nextId + 1
                browsers := (w.nextId, true) :: w.browsers
                launches := w.launches + 1
                headedBrowser := some w.nextId }, w.nextId) := by
        unfold getBrowser launchBrowser
        rw [hE]
        rfl
      refine ⟨?_, ?_, by rw [hg], ?_, by intro _; rw [hg]⟩
      · rw [hg]
        unfold browserConnected
        rw [lookup_cons_self]
        rfl
      · rw [hg]
        unfold getBrowser
        simp [browserConnected, lookup_cons_self]
      · intro b hb hcb
        simp at hb

/-- Witness for C7: from a fresh pool, the first headless acquisition
launches one process and the second returns the identical connected
process without launching. -/
theorem getBrowser_pool_witness :
    browserConnected (getBrowser initialWorld true).1
      (getBrowser initialWorld true).2 = true ∧
    getBrowser (getBrowser initialWorld true).1 true
      = getBrowser initialWorld true ∧
    (getBrowser initialWorld true).1.launches = 1 := by
  have h := getBrowser_pool initialWorld true
  exact ⟨h.1, h.2.1, h.2.2.2.2 (fun b hb => by cases hb)⟩

/-! ## Claim C4 — session-seeded context creation -/

/-- The sessions directory after saving the session `"demo"` with a storage
state containing the cookie `a=1` at time 0. -/
def demoFS : FS := saveSessionFile [] 0 "demo" ⟨[⟨"a", "1"⟩]⟩

/-- A fresh world whose sessions directory is `demoFS`, at time 5. -/
def demoWorld : World := { initialWorld with fs := demoFS, now := 5 }

/-- C4. When a truthy session name with an existing SessionRecord is given,
`createContext` creates the context seeded from the record's stored storage
state and touches the record (the file's modification time becomes the
current time); otherwise it creates a bare context and leaves the store
alone.  Concretely: after saving session `"demo"` with cookie `a=1`, calling
`getOrCreatePage` with contextId `"c1"` and session `"demo"` yields a
context whose storage state contains the cookie `a=1`. -/
theorem lookup_addInitScript (w : World) (c k : Nat) :
    List.lookup k (addInitScript w c).ctxs
      = (List.lookup k w.ctxs).map
          (fun v => if k = c then { v with stealth := true } else v) :=
  lookup_map_val
    (fun (a : Nat) (v : CtxData) =>
      if a = c then { v with stealth := true } else v) k w.ctxs

theorem createContext_eq_some (w : World) (opts : BrowserOptions) (s : String)
    (hts : truthyStr opts.session = some s) :
    createContext w opts =
      (let headless := opts.headless.getD true
       let w1 := (getBrowser w headless).1
       let b := (getBrowser w headless).2
       if sessionExists w1.fs s then
         let seed := ((fsGet w1.fs (getSessionPath s)).map
           FileStat.content).getD emptyStorage
         let w2 := (newContext w1 (some b) seed).1
         let c := (newContext w1 (some b) seed).2
         let w3 := { w2 with fs := touchSession w2.fs w2.now s }
         (addInitScript w3 c, c)
       else
         let w2 := (newContext w1 (some b) emptyStorage).1
         let c := (newContext w1 (some b) emptyStorage).2
         (addInitScript w2 c, c)) := by
  unfold createContext
  rw [hts]

theorem createContext_eq_none (w : World) (opts : BrowserOptions)
    (hts : truthyStr opts.session = none) :
    createContext w opts =
      (let headless := opts.headless.getD true
       let w1 := (getBrowser w headless).1
       let b := (getBrowser w headless).2
       let w2 := (newContext w1 (some b) emptyStorage).1
       let c := (newContext w1 (some b) emptyStorage).2
       (addInitScript w2 c, c)) := by
  unfold createContext
  rw [hts]

/-- C4. When a truthy session name with an existing SessionRecord is given,
`createContext` creates the context seeded from the record's stored storage
state and touches the record (the file's modification time becomes the
current time); otherwise it creates a bare context and leaves the store
alone.  Concretely: after saving session `"demo"` with cookie `a=1`, calling
`getOrCreatePage` with contextId `"c1"` and session `"demo"` yields a
context whose storage state contains the cookie `a=1`. -/
theorem createContext_session_seeding :
    (∀ (w : World) (opts : BrowserOptions) (s : String),
      truthyStr opts.session = some s → sessionExists w.fs s = true →
      ctxSeed (createContext w opts).1 (createContext w opts).2
          = ((fsGet w.fs (getSessionPath s)).map FileStat.content).getD
              emptyStorage
        ∧ (createContext w opts).1.fs = touchSession w.fs w.now s) ∧
    (∀ (w : World) (opts : BrowserOptions),
      (match truthyStr opts.session with
        | some s => sessionExists w.fs s = false
        | none => True) →
      ctxSeed (createContext w opts).1 (createContext w opts).2 = emptyStorage
        ∧ (createContext w opts).1.fs = w.fs) ∧
    (⟨"a", "1"⟩ ∈ (ctxSeed
        (getOrCreatePage demoWorld "c1" {session := some "demo"}).1
        (getOrCreatePage demoWorld "c1" {session := some "demo"}).2.1).cookies) := by
  refine ⟨?_, ?_, by decide⟩
  · intro w opts s hts hse
    have hfs := (getBrowser_preserves w (opts.headless.getD true)).1
    have hnow := (getBrowser_preserves w (opts.headless.getD true)).2.1
    rw [createContext_eq_some w opts s hts]
    simp only [hfs, hse, if_true]
    constructor
    · unfold ctxSeed
      rw [lookup_addInitScript]
      simp only [newContext]
      rw [lookup_cons_self]
      simp [hfs]
    · show touchSession (getBrowser w (opts.headless.getD true)).1.fs
          (getBrowser w (opts.headless.getD true)).1.now s
        = touchSession w.fs w.now s
      rw [hfs, hnow]
  · intro w opts hmiss
    have hfs := (getBrowser_preserves w (opts.headless.getD true)).1
    cases hts : truthyStr opts.session with
    | some s =>
      rw [hts] at hmiss
      rw [createContext_eq_some w opts s hts]
      simp only [hfs, hmiss, Bool.false_eq_true, if_false]
      constructor
      · unfold ctxSeed
        rw [lookup_addInitScript]
        simp only [newContext]
        rw [lookup_cons_self]
        simp
      · exact hfs
    | none =>
      rw [createContext_eq_none w opts hts]
      constructor
      · unfold ctxSeed
        rw [lookup_addInitScript]
        simp only [newContext]
        rw [lookup_cons_self]
        simp
      · exact hfs

/-- Witness for C4: the `"demo"` scenario, with both branches of the
hypothesis discharged on concrete input. -/
theorem createContext_session_seeding_witness :
    ctxSeed (createContext demoWorld {session := some "demo"}).1
        (createContext demoWorld {session := some "demo"}).2
      = ⟨[⟨"a", "1"⟩]⟩ ∧
    (createContext demoWorld {session := some "demo"}).1.fs
      = touchSession demoWorld.fs 5 "demo" ∧
    (createContext initialWorld {session := some "ghost"}).1.fs
      = initialWorld.fs := by
  have h := createContext_session_seeding.1 demoWorld
    {session := some "demo"} "demo" (by decide) (by decide)
  have h2 := createContext_session_seeding.2.1 initialWorld
    {session := some "ghost"}
    (by show sessionExists initialWorld.fs "ghost" = false; decide)
  exact ⟨h.1.trans (by decide), h.2, h2.2⟩

/-! ## Claim C8 — touching a session -/

/-- C8. For an existing session file whose modification time lies strictly
before the current clock, `touchSession` moves `lastUsedAt` (the file's
`mtime`) to a strictly later value, leaves `createdAt` (the file's
`birthtime`) unchanged and does not rewrite the file's content. -/
theorem touchSession_mtime_only (fs : FS) (now : Nat) (name : String)
    (st : FileStat)
    (hst : fsGet fs (getSessionPath name) = some st)
    (hlt : st.mtime < now) :
    ∃ st2, fsGet (touchSession fs now name) (getSessionPath name) = some st2
      ∧ st.mtime < st2.mtime
      ∧ st2.birthtime = st.birthtime
      ∧ st2.content = st.content := by
  refine ⟨⟨st.content, st.birthtime, now⟩, ?_, by simpa using hlt, rfl, rfl⟩
  simp only [touchSession]
  rw [hst]
  simp only [Option.isSome_some, if_true]
  unfold fsGet
  rw [lookup_map_val (fun (k : String) (v : FileStat) =>
    if k = getSessionPath name then { v with mtime := now } else v)]
  unfold fsGet at hst
  rw [hst]
  simp

/-- Witness for C8: touching the `"demo"` session saved at time 0 with the
clock at 5. -/
theorem touchSession_mtime_only_witness :
    ∃ st2, fsGet (touchSession demoFS 5 "demo") (getSessionPath "demo")
        = some st2
      ∧ 0 < st2.mtime
      ∧ st2.birthtime = 0
      ∧ st2.content = ⟨[⟨"a", "1"⟩]⟩ := by
  have h := touchSession_mtime_only demoFS 5 "demo" ⟨⟨[⟨"a", "1"⟩]⟩, 0, 0⟩
    (by decide) (by decide)
  simpa using h

/-! ## Claim C5 — the Interactive Login Coordinator

`startLoginSession` of `manager.ts`.  `ensureSessionsDir` /
`ensureBrowserDataDir` create directories and `getExtensionPaths` only
affects the launch argument list, so neither appears in the model state.
The `page.goto(loginUrl)` outcome is the oracle `nav`: `none` for success,
`some err` for a navigation failure with message `err`. -/

/-- The part of `startLoginSession` after the purge of a previous login
session under the same name: launch a persistent context, inject the stealth
script, open a page and navigate; on success register the
ActiveLoginSession, on failure close the context and register nothing. -/
def openLoginWindow (w1 : World) (sessionName loginUrl : String)
    (nav : Option String) : World × Bool × String :=
  let c := (launchPersistentContext w1).2
  let w2 := (launchPersistentContext w1).1
  let w3 := addInitScript w2 c
  let p := (newPage w3 c).2
  let w4 := (newPage w3 c).1
  match nav with
  | none =>
    let w5 := setPageUrl w4 p loginUrl
    ({ w5 with
        activeLoginSessions :=
          alSet sessionName ⟨c, p, sessionName⟩ w5.activeLoginSessions },
      true,
      "Login window opened. Extensions supported - install from Chrome Web Store. Call browser_session_close when done.")
  | some err =>
    (closeCtx w4 c, false, "Failed to navigate: " ++ err)

/-- `startLoginSession` of `manager.ts`: force-close and deregister any
existing login session with this name (best effort, errors ignored), then
open the login window. -/
def startLoginSession (w : World) (sessionName loginUrl : String)
    (nav : Option String) : World × Bool × String :=
  let w1 :=
    match List.lookup sessionName w.activeLoginSessions with
    | some existing =>
      { closeCtx w existing.ctx with
          activeLoginSessions := alErase sessionName w.activeLoginSessions }
    | none => w
  openLoginWindow w1 sessionName loginUrl nav

theorem startLoginSession_eq_of_prior (w : World) (name url : String)
    (nav : Option String) (prior : LoginSession)
    (hp : List.lookup name w.activeLoginSessions = some prior) :
    startLoginSession w name url nav
      = openLoginWindow
          { closeCtx w prior.ctx with
              activeLoginSessions := alErase name w.activeLoginSessions }
          name url nav := by
  unfold startLoginSession
  rw [hp]

theorem startLoginSession_eq_of_noPrior (w : World) (name url : String)
    (nav : Option String)
    (hp : List.lookup name w.activeLoginSessions = none) :
    startLoginSession w name url nav = openLoginWindow w name url nav := by
  unfold startLoginSession
  rw [hp]

theorem openLoginWindow_ok_sessions (w1 : World) (name url : String) :
    (openLoginWindow w1 name url none).1.activeLoginSessions
      = alSet name ⟨w1.nextId, w1.nextId + 1, name⟩ w1.activeLoginSessions :=
  rfl

theorem openLoginWindow_fail_sessions (w1 : World) (name url err : String) :
    (openLoginWindow w1 name url (some err)).1.activeLoginSessions
      = w1.activeLoginSessions := rfl

theorem openLoginWindow_ok_success (w1 : World) (name url : String) :
    (openLoginWindow w1 name url none).2.1 = true := rfl

theorem openLoginWindow_fail_success (w1 : World) (name url err : String) :
    (openLoginWindow w1 name url (some err)).2.1 = false := rfl

theorem lookup_closeCtx_ctxs (w : World) (c k : Nat) :
    List.lookup k (closeCtx w c).ctxs
      = (List.lookup k w.ctxs).map
          (fun v => if k = c then { v with closed := true } else v) :=
  lookup_map_val
    (fun (a : Nat) (v : CtxData) =>
      if a = c then { v with closed := true } else v) k w.ctxs

theorem ctxClosed_closeCtx_self (w : World) (c : Nat) :
    ctxClosed (closeCtx w c) c = true := by
  unfold ctxClosed
  rw [lookup_closeCtx_ctxs]
  cases List.lookup c w.ctxs <;> simp

theorem ctxClosed_closeCtx_mono (w : World) (c k : Nat)
    (h : ctxClosed w k = true) : ctxClosed (closeCtx w c) k = true := by
  unfold ctxClosed at h ⊢
  rw [lookup_closeCtx_ctxs]
  cases hl : List.lookup k w.ctxs with
  | none => simp
  | some v =>
    rw [hl] at h
    by_cases hkc : k = c
    · simp [hkc]
    · simp only [hkc, if_false]
      simpa using h

theorem ctxClosed_addInitScript (w : World) (c k : Nat) :
    ctxClosed (addInitScript w c) k = ctxClosed w k := by
  unfold ctxClosed
  rw [lookup_addInitScript]
  cases List.lookup k w.ctxs with
  | none => rfl
  | some v => by_cases hkc : k = c <;> simp [hkc]

theorem ctxClosed_newContext_ne (w : World) (b : Option Nat)
    (sd : StorageState) (k : Nat) (hk : k ≠ w.nextId) :
    ctxClosed (newContext w b sd).1 k = ctxClosed w k := by
  unfold ctxClosed newContext
  simp [List.lookup, beq_false_of_ne hk]

/-- Every context of `w1` other than the freshly allocated one keeps its
closed flag through the whole login-window pipeline. -/
theorem ctxClosed_openLoginWindow (w1 : World) (name url : String)
    (nav : Option String) (k : Nat) (hk : k ≠ w1.nextId)
    (hcl : ctxClosed w1 k = true) :
    ctxClosed (openLoginWindow w1 name url nav).1 k = true := by
  cases nav with
  | none =>
    show ctxClosed (addInitScript (newContext w1 none emptyStorage).1
        (newContext w1 none emptyStorage).2) k = true
    rw [ctxClosed_addInitScript, ctxClosed_newContext_ne w1 none emptyStorage k hk]
    exact hcl
  | some err =>
    apply ctxClosed_closeCtx_mono
    show ctxClosed (addInitScript (newContext w1 none emptyStorage).1
        (newContext w1 none emptyStorage).2) k = true
    rw [ctxClosed_addInitScript, ctxClosed_newContext_ne w1 none emptyStorage k hk]
    exact hcl

/-- On a navigation failure the freshly created context is closed. -/
theorem openLoginWindow_fail_newCtx_closed (w1 : World) (name url err : String) :
    ctxClosed (openLoginWindow w1 name url (some err)).1 w1.nextId = true :=
  ctxClosed_closeCtx_self _ _

theorem lookup_alErase_self {β : Type} (k : String) (l : List (String × β)) :
    List.lookup k (alErase k l) = none :=
  lookup_filter_of_false _ _ _ (fun v => by simp)

theorem countP_key_filter_ne {β : Type} (k : String) (l : List (String × β)) :
    (List.filter (fun e => e.1 != k) l).countP (fun e => e.1 == k) = 0 := by
  induction l with
  | nil => rfl
  | cons e t ih =>
    by_cases h : e.1 = k
    · simp only [List.filter, h, bne_self_eq_false]
      exact ih
    · simp only [List.filter, bne, beq_false_of_ne h, Bool.not_false]
      rw [List.countP_cons]
      simp [beq_false_of_ne h, ih]

theorem countP_alSet_self {β : Type} (k : String) (v : β)
    (l : List (String × β)) :
    (alSet k v l).countP (fun e => e.1 == k) = 1 := by
  unfold alSet
  rw [List.countP_cons]
  simp [countP_key_filter_ne]

/-- C5. At most one ActiveLoginSession is registered per name at any time.
`startLoginSession` first force-closes a prior session's context under the
same name and removes it from the active set (the prior entry can never
survive the call); on navigation failure the call reports failure, the new
context (id `w.nextId`) is closed and nothing is registered under the name;
on success the freshly created context/page pair is registered. -/
theorem startLoginSession_exclusive (w : World) (name url : String)
    (nav : Option String) (hwf : worldWF w = true) :
    (∀ prior, List.lookup name w.activeLoginSessions = some prior →
        ctxClosed (startLoginSession w name url nav).1 prior.ctx = true ∧
        List.lookup name
            (startLoginSession w name url nav).1.activeLoginSessions
          ≠ some prior) ∧
    (∀ err, nav = some err →
        (startLoginSession w name url nav).2.1 = false ∧
        List.lookup name
            (startLoginSession w name url nav).1.activeLoginSessions = none ∧
        ctxClosed (startLoginSession w name url nav).1 w.nextId = true) ∧
    (nav = none →
        (startLoginSession w name url nav).2.1 = true ∧
        List.lookup name
            (startLoginSession w name url nav).1.activeLoginSessions
          = some ⟨w.nextId, w.nextId + 1, name⟩) ∧
    (w.activeLoginSessions.countP (fun e => e.1 == name) ≤ 1 →
      (startLoginSession w name url nav).1.activeLoginSessions.countP
        (fun e => e.1 == name) ≤ 1) := by
  have hwf4 : ∀ e ∈ w.activeLoginSessions, e.2.ctx < w.nextId := by
    have := hwf
    unfold worldWF at this
    simp only [Bool.and_eq_true, List.all_eq_true, decide_eq_true_eq] at this
    intro e he
    exact (this.2 e he).1
  cases hp : List.lookup name w.activeLoginSessions with
  | some prior =>
    have hmem : (name, prior) ∈ w.activeLoginSessions := lookup_some_mem hp
    have hlt : prior.ctx < w.nextId := hwf4 (name, prior) hmem
    have hne : prior.ctx ≠ w.nextId := Nat.ne_of_lt hlt
    rw [startLoginSession_eq_of_prior w name url nav prior hp]
    set w1 : World :=
      { closeCtx w prior.ctx with
          activeLoginSessions := alErase name w.activeLoginSessions } with hw1
    have hw1next : w1.nextId = w.nextId := rfl
    have hclosed1 : ctxClosed w1 prior.ctx = true := ctxClosed_closeCtx_self w prior.ctx
    refine ⟨?_, ?_, ?_, ?_⟩
    · intro prior2 hp2
      injection hp2 with hp2
      subst hp2
      refine ⟨ctxClosed_openLoginWindow w1 name url nav prior.ctx
        (by rw [hw1next]; exact hne) hclosed1, ?_⟩
      cases nav with
      | none =>
        rw [openLoginWindow_ok_sessions]
        unfold alSet
        rw [lookup_cons_self]
        intro hcontra
        injection hcontra with hcontra
        have : prior.ctx = w.nextId := by rw [← hcontra]; rfl
        exact hne this
      | some err =>
        rw [openLoginWindow_fail_sessions]
        show List.lookup name (alErase name w.activeLoginSessions) ≠ some prior
        rw [lookup_alErase_self]
        intro hcontra
        cases hcontra
    · intro err hnav
      subst hnav
      refine ⟨openLoginWindow_fail_success w1 name url err, ?_, ?_⟩
      · rw [openLoginWindow_fail_sessions]
        exact lookup_alErase_self name w.activeLoginSessions
      · have := openLoginWindow_fail_newCtx_closed w1 name url err
        rw [hw1next] at this
        exact this
    · intro hnav
      subst hnav
      refine ⟨openLoginWindow_ok_success w1 name url, ?_⟩
      rw [openLoginWindow_ok_sessions]
      unfold alSet
      rw [lookup_cons_self]
      rw [hw1next]
    · intro _
      cases nav with
      | none =>
        rw [openLoginWindow_ok_sessions]
        rw [countP_alSet_self]
      | some err =>
        rw [openLoginWindow_fail_sessions]
        show (alErase name w.activeLoginSessions).countP
            (fun e => e.1 == name) ≤ 1
        unfold alErase
        rw [countP_key_filter_ne]
        exact Nat.zero_le 1
  | none =>
    rw [startLoginSession_eq_of_noPrior w name url nav hp]
    refine ⟨?_, ?_, ?_, ?_⟩
    · intro prior2 hp2
      cases hp2
    · intro err hnav
      subst hnav
      refine ⟨openLoginWindow_fail_success w name url err, ?_, ?_⟩
      · rw [openLoginWindow_fail_sessions]
        exact hp
      · exact openLoginWindow_fail_newCtx_closed w name url err
    · intro hnav
      subst hnav
      refine ⟨openLoginWindow_ok_success w name url, ?_⟩
      rw [openLoginWindow_ok_sessions]
      unfold alSet
      rw [lookup_cons_self]
    · intro hcount
      cases nav with
      | none =>
        rw [openLoginWindow_ok_sessions]
        rw [countP_alSet_self]
      | some err =>
        rw [openLoginWindow_fail_sessions]
        exact hcount

/-- A world holding one open login session named `"gmail"` on context 7 with
page 8. -/
def wLogin : World :=
  { initialWorld with
      nextId := 9
      ctxs := [(7, ⟨none, emptyStorage, true, false⟩)]
      pages := [(8, ⟨7, "https://gmail.com", false⟩)]
      activeLoginSessions := [("gmail", ⟨7, 8, "gmail"⟩)] }

/-- Witness for C5: restarting the `"gmail"` login closes context 7 and, on
a navigation failure, registers nothing and closes the new context. -/
theorem startLoginSession_exclusive_witness :
    ctxClosed (startLoginSession wLogin "gmail" "https://x" (some "net")).1 7
      = true ∧
    List.lookup "gmail"
        (startLoginSession wLogin "gmail" "https://x" (some "net")).1.activeLoginSessions
      = none ∧
    ctxClosed (startLoginSession wLogin "gmail" "https://x" (some "net")).1 9
      = true := by
  have h := startLoginSession_exclusive wLogin "gmail" "https://x" (some "net")
    (by decide)
  exact ⟨(h.1 ⟨7, 8, "gmail"⟩ (by decide)).1, (h.2.1 "net" rfl).2.1,
    (h.2.1 "net" rfl).2.2⟩

/-! ## External Browser Bridge (`manager.ts`) and `getSharedPage`
(`src/mcp/streamable-http.ts`) — claims C6 and C10 -/

/-- Result of the bridge's page-acquisition functions: a page handle with a
message, or a failure message. -/
inductive PageResult where
  | ok (page : Nat) (message : String)
  | fail (message : String)
deriving DecidableEq, Repr

/-- `browser.contexts()`: the open contexts owned by browser `b`, in
creation order (the model stores the newest first, hence the reverse). -/
def ctxsOf (w : World) (b : Nat) : List (Nat × CtxData) :=
  (w.ctxs.filter (fun e => e.2.browser == some b && !e.2.closed)).reverse

/-- `context.pages()`: the open pages of context `c`, in creation order. -/
def pagesOf (w : World) (c : Nat) : List (Nat × PageData) :=
  (w.pages.filter (fun e => e.2.ctx == c && !e.2.closed)).reverse

/-- The inner page loop of `getRealChromePage`: with no pattern, the first
page wins; with a pattern, the first page whose URL contains it. -/
def findInPages (urlPattern : Option String)
    (pages : List (Nat × PageData)) : Option (Nat × String) :=
  match pages with
  | [] => none
  | (pid, pd) :: rest =>
    match urlPattern with
    | none => some (pid, "Using tab: " ++ pd.url)
    | some pat =>
      if strIncludes pd.url pat then
        some (pid, "Found matching tab: " ++ pd.url)
      else findInPages urlPattern rest

/-- The outer context loop of `getRealChromePage`. -/
def findInCtxs (w : World) (urlPattern : Option String)
    (l : List (Nat × CtxData)) : Option (Nat × String) :=
  match l with
  | [] => none
  | (cid, _) :: rest =>
    match findInPages urlPattern (pagesOf w cid) with
    | some r => some r
    | none => findInCtxs w urlPattern rest

/-- `getRealChromePage` of `manager.ts`.  `connect` is the oracle for the
auto-`connectOverCDP(CDP_ENDPOINT, {timeout: 2000})` attempt performed when
no live CDP connection exists: `some b` means the attempt succeeds,
attaching to browser `b`; `none` means the endpoint refused.  With a live
attachment, return the first open tab (or the first tab whose URL contains
`urlPattern` when one is given), else open a new tab in the first context,
else fail. -/
def getRealChromePage (w : World) (urlPattern : Option String)
    (connect : Option Nat) : World × PageResult :=
  match
    (match w.connectedBrowser with
     | some b =>
       if browserConnected w b then some (w, b)
       else
         match connect with
         | some nb => some ({ w with connectedBrowser := some nb }, nb)
         | none => none
     | none =>
       match connect with
       | some nb => some ({ w with connectedBrowser := some nb }, nb)
       | none => none)
  with
  | none =>
    (w, .fail "Chrome not running with remote debugging. Run ./launch-chrome.sh first.")
  | some (w1, b) =>
    match findInCtxs w1 urlPattern (ctxsOf w1 b) with
    | some (pid, msg) => (w1, .ok pid msg)
    | none =>
      match ctxsOf w1 b with
      | [] => (w1, .fail "No browser contexts available")
      | (cid, _) :: _ =>
        ((newPage w1 cid).1, .ok (newPage w1 cid).2 "Created new tab")

/-- `getRealProfilePage` of `manager.ts`: the first open tab of the
persistent-profile context if launched (opening one when the context has no
pages), else a failure. -/
def getRealProfilePage (w : World) : World × PageResult :=
  match w.realChromeContext with
  | none =>
    (w, .fail "Real Chrome profile not launched. Call browser_launch_chrome first.")
  | some c =>
    match pagesOf w c with
    | (pid, pd) :: _ => (w, .ok pid ("Using existing tab: " ++ pd.url))
    | [] => ((newPage w c).1, .ok (newPage w c).2 "Created new tab")

/-- Result of `getSharedPage`: a page with its source tag, or an error. -/
inductive SharedResult where
  | ok (page : Nat) (src : String)
  | err (msg : String)
deriving DecidableEq, Repr

/-- The fixed facade-scoped context id of `src/mcp/streamable-http.ts`. -/
def MCP_CONTEXT : String := "mcp-http"

/-- `getSharedPage` of `src/mcp/streamable-http.ts`: try the CDP-connected
Chrome (passing *no* URL pattern), then the persistent-profile context, then
fall back to the registry keyed by `MCP_CONTEXT` and the caller's optional
session — rejecting a truthy session that has no SessionRecord. -/
def getSharedPage (w : World) (session : Option String)
    (connect : Option Nat) : World × SharedResult :=
  match (getRealChromePage w none connect).2 with
  | .ok p _ => ((getRealChromePage w none connect).1, .ok p "real-chrome-cdp")
  | .fail _ =>
    match (getRealProfilePage (getRealChromePage w none connect).1).2 with
    | .ok p _ =>
      ((getRealProfilePage (getRealChromePage w none connect).1).1,
        .ok p "real-chrome-profile")
    | .fail _ =>
      match truthyStr session with
      | some s =>
        if !sessionExists
            (getRealProfilePage (getRealChromePage w none connect).1).1.fs s then
          ((getRealProfilePage (getRealChromePage w none connect).1).1,
            .err ("Session \"" ++ s ++ "\" not found"))
        else
          ((getOrCreatePage
              (getRealProfilePage (getRealChromePage w none connect).1).1
              MCP_CONTEXT { headless := some false, session := session }).1,
            .ok ((getOrCreatePage
              (getRealProfilePage (getRealChromePage w none connect).1).1
              MCP_CONTEXT { headless := some false, session := session }).2.2)
              ("session:" ++ s))
      | none =>
        ((getOrCreatePage
            (getRealProfilePage (getRealChromePage w none connect).1).1
            MCP_CONTEXT { headless := some false, session := session }).1,
          .ok ((getOrCreatePage
            (getRealProfilePage (getRealChromePage w none connect).1).1
            MCP_CONTEXT { headless := some false, session := session }).2.2)
            "playwright")

theorem getSharedPage_eq_cdp (w : World) (session : Option String)
    (connect : Option Nat) (p : Nat) (m : String)
    (h1 : (getRealChromePage w none connect).2 = .ok p m) :
    getSharedPage w session connect
      = ((getRealChromePage w none connect).1, .ok p "real-chrome-cdp") := by
  unfold getSharedPage
  rw [h1]

theorem getSharedPage_eq_profile (w : World) (session : Option String)
    (connect : Option Nat) (m1 : String) (p : Nat) (m2 : String)
    (h1 : (getRealChromePage w none connect).2 = .fail m1)
    (h2 : (getRealProfilePage (getRealChromePage w none connect).1).2
        = .ok p m2) :
    getSharedPage w session connect
      = ((getRealProfilePage (getRealChromePage w none connect).1).1,
         .ok p "real-chrome-profile") := by
  unfold getSharedPage
  rw [h1, h2]

theorem getSharedPage_eq_noSession (w : World) (session : Option String)
    (connect : Option Nat) (m1 m2 : String)
    (h1 : (getRealChromePage w none connect).2 = .fail m1)
    (h2 : (getRealProfilePage (getRealChromePage w none connect).1).2
        = .fail m2)
    (hts : truthyStr session = none) :
    getSharedPage w session connect
      = ((getOrCreatePage
            (getRealProfilePage (getRealChromePage w none connect).1).1
            MCP_CONTEXT { headless := some false, session := session }).1,
         .ok ((getOrCreatePage
            (getRealProfilePage (getRealChromePage w none connect).1).1
            MCP_CONTEXT { headless := some false, session := session }).2.2)
           "playwright") := by
  unfold getSharedPage
  rw [h1, h2, hts]

theorem getSharedPage_eq_noRecord (w : World) (session : Option String)
    (connect : Option Nat) (m1 m2 s : String)
    (h1 : (getRealChromePage w none connect).2 = .fail m1)
    (h2 : (getRealProfilePage (getRealChromePage w none connect).1).2
        = .fail m2)
    (hts : truthyStr session = some s)
    (hse : sessionExists
        (getRealProfilePage (getRealChromePage w none connect).1).1.fs s
      = false) :
    getSharedPage w session connect
      = ((getRealProfilePage (getRealChromePage w none connect).1).1,
         .err ("Session \"" ++ s ++ "\" not found")) := by
  unfold getSharedPage
  rw [h1, h2, hts]
  show (if (!sessionExists
      (getRealProfilePage (getRealChromePage w none connect).1).1.fs s) = true
    then _ else _) = _
  rw [hse]
  rfl

theorem getSharedPage_eq_record (w : World) (session : Option String)
    (connect : Option Nat) (m1 m2 s : String)
    (h1 : (getRealChromePage w none connect).2 = .fail m1)
    (h2 : (getRealProfilePage (getRealChromePage w none connect).1).2
        = .fail m2)
    (hts : truthyStr session = some s)
    (hse : sessionExists
        (getRealProfilePage (getRealChromePage w none connect).1).1.fs s
      = true) :
    getSharedPage w session connect
      = ((getOrCreatePage
            (getRealProfilePage (getRealChromePage w none connect).1).1
            MCP_CONTEXT { headless := some false, session := session }).1,
         .ok ((getOrCreatePage
            (getRealProfilePage (getRealChromePage w none connect).1).1
            MCP_CONTEXT { headless := some false, session := session }).2.2)
           ("session:" ++ s)) := by
  unfold getSharedPage
  rw [h1, h2, hts]
  show (if (!sessionExists
      (getRealProfilePage (getRealChromePage w none connect).1).1.fs s) = true
    then _ else _) = _
  rw [hse]
  rfl

/-! ## Claim C10 -/

/-- C10. `getSharedPage` performs the session-existence check only on its
final fallback branch: whenever the remote-debugging attachment yields a
page, or — failing that — the persistent-profile context yields one,
`getSharedPage` returns that page successfully for *every* session argument
(including names with no saved SessionRecord) and never returns the
"Session not found" error; conversely, an error result can only arise when
both external modes failed, the session is truthy and its record does not
exist. -/
theorem getSharedPage_session_check_last (w : World) (session : Option String)
    (connect : Option Nat) :
    (∀ p m, (getRealChromePage w none connect).2 = .ok p m →
        (getSharedPage w session connect).2 = .ok p "real-chrome-cdp") ∧
    (∀ m p m2, (getRealChromePage w none connect).2 = .fail m →
        (getRealProfilePage (getRealChromePage w none connect).1).2
          = .ok p m2 →
        (getSharedPage w session connect).2 = .ok p "real-chrome-profile") ∧
    (∀ e, (getSharedPage w session connect).2 = .err e →
        (∃ m, (getRealChromePage w none connect).2 = .fail m) ∧
        (∃ m, (getRealProfilePage (getRealChromePage w none connect).1).2
            = .fail m) ∧
        (∃ s, truthyStr session = some s ∧
          sessionExists
            (getRealProfilePage (getRealChromePage w none connect).1).1.fs s
            = false ∧
          e = "Session \"" ++ s ++ "\" not found")) := by
  refine ⟨?_, ?_, ?_⟩
  · intro p m h1
    rw [getSharedPage_eq_cdp w session connect p m h1]
  · intro m p m2 h1 h2
    rw [getSharedPage_eq_profile w session connect m p m2 h1 h2]
  · intro e he
    cases hr1 : (getRealChromePage w none connect).2 with
    | ok p m =>
      rw [getSharedPage_eq_cdp w session connect p m hr1] at he
      simp at he
    | fail m =>
      cases hr2 : (getRealProfilePage (getRealChromePage w none connect).1).2 with
      | ok p m2 =>
        rw [getSharedPage_eq_profile w session connect m p m2 hr1 hr2] at he
        simp at he
      | fail m2 =>
        cases hts : truthyStr session with
        | none =>
          rw [getSharedPage_eq_noSession w session connect m m2 hr1 hr2 hts] at he
          simp at he
        | some s =>
          by_cases hse : sessionExists
              (getRealProfilePage (getRealChromePage w none connect).1).1.fs s
              = true
          · rw [getSharedPage_eq_record w session connect m m2 s hr1 hr2 hts hse] at he
            simp at he
          · have hsf : sessionExists
                (getRealProfilePage (getRealChromePage w none connect).1).1.fs s
                = false := by simpa using hse
            rw [getSharedPage_eq_noRecord w session connect m m2 s hr1 hr2 hts hsf] at he
            simp only [SharedResult.err.injEq] at he
            exact ⟨⟨m, rfl⟩, ⟨m2, rfl⟩, s, rfl, hsf, he.symm⟩

/-- A world with a live CDP attachment (browser 10) owning context 20 with
one open tab, page 30. -/
def wBridge : World :=
  { initialWorld with
      nextId := 40
      browsers := [(10, true)]
      ctxs := [(20, ⟨some 10, emptyStorage, false, false⟩)]
      pages := [(30, ⟨20, "https://example.com", false⟩)]
      connectedBrowser := some 10 }

/-- Witness for C10: with the CDP tab live, even a never-saved session name
(`"nosuch"`) yields the CDP page, not a "Session not found" error. -/
theorem getSharedPage_session_check_last_witness :
    (getSharedPage wBridge (some "nosuch") none).2
      = .ok 30 "real-chrome-cdp" := by
  exact (getSharedPage_session_check_last wBridge (some "nosuch") none).1
    30 "Using tab: https://example.com" (by decide)

/-! ## Claim C6 -/

/-- A world where both external modes are live: CDP browser 10 owns context
20 with two open tabs — page 30 (`example.com`, created first) and page 31
(`mail.google.com`) — and the persistent-profile context 21 has the open
page 32. -/
def wC6 : World :=
  { initialWorld with
      nextId := 40
      browsers := [(10, true)]
      ctxs := [(21, ⟨none, emptyStorage, false, false⟩),
               (20, ⟨some 10, emptyStorage, false, false⟩)]
      pages := [(32, ⟨21, "https://profile.example", false⟩),
                (31, ⟨20, "https://mail.google.com/u/0", false⟩),
                (30, ⟨20, "https://example.com/home", false⟩)]
      connectedBrowser := some 10
      realChromeContext := some 21 }

/-- Counterexample for C6.  `getSharedPage` accepts no URL pattern — its
only string argument is the optional session name — and it invokes
`getRealChromePage()` with no pattern, so even though a live CDP tab whose
URL contains `"mail"` exists (page 31) and the profile context is live as
well, the call (here with `"mail"` passed in the only possible string slot)
returns the *first* CDP tab, page 30, not the matching tab. -/
theorem getSharedPage_pattern_counterexample :
    strIncludes "https://mail.google.com/u/0" "mail" = true ∧
    wC6.connectedBrowser = some 10 ∧ browserConnected wC6 10 = true ∧
    pageClosed wC6 31 = false ∧
    wC6.realChromeContext = some 21 ∧ pageClosed wC6 32 = false ∧
    (getRealChromePage wC6 (some "mail") none).2
      = .ok 31 "Found matching tab: https://mail.google.com/u/0" ∧
    (getSharedPage wC6 (some "mail") none).2 = .ok 30 "real-chrome-cdp" ∧
    (getSharedPage wC6 none none).2 = .ok 30 "real-chrome-cdp" ∧
    (30 : Nat) ≠ 31 := by
  refine ⟨by decide, rfl, by decide, by decide, rfl, by decide, by decide,
    by decide, by decide, by decide⟩

/-- C6 (amended).  `getSharedPage` selects page providers in strict
precedence order — a live remote-debugging attachment first, then the
persistent-profile context, then the registry keyed by the fixed facade
context id `"mcp-http"` and the caller's optional session — but it passes no
URL pattern to the CDP provider: with a live attachment it returns the
*first* open CDP tab regardless of any pattern one might want; URL-pattern
selection (e.g. `"mail"`) exists only when `getRealChromePage` is called
directly with a pattern, in which case the first tab whose URL contains the
pattern is returned. -/
theorem getSharedPage_precedence_amended (w : World) (session : Option String)
    (connect : Option Nat) :
    (∀ p m, (getRealChromePage w none connect).2 = .ok p m →
        (getSharedPage w session connect)
          = ((getRealChromePage w none connect).1, .ok p "real-chrome-cdp")) ∧
    (∀ m p m2, (getRealChromePage w none connect).2 = .fail m →
        (getRealProfilePage (getRealChromePage w none connect).1).2
          = .ok p m2 →
        (getSharedPage w session connect)
          = ((getRealProfilePage (getRealChromePage w none connect).1).1,
             .ok p "real-chrome-profile")) ∧
    (∀ m m2 s, (getRealChromePage w none connect).2 = .fail m →
        (getRealProfilePage (getRealChromePage w none connect).1).2
          = .fail m2 →
        truthyStr session = some s →
        sessionExists
            (getRealProfilePage (getRealChromePage w none connect).1).1.fs s
          = true →
        (getSharedPage w session connect).2
          = .ok ((getOrCreatePage
              (getRealProfilePage (getRealChromePage w none connect).1).1
              MCP_CONTEXT { headless := some false, session := session }).2.2)
              ("session:" ++ s)) ∧
    ((getRealChromePage wC6 (some "mail") none).2
      = .ok 31 "Found matching tab: https://mail.google.com/u/0") ∧
    ((getSharedPage wC6 (some "mail") none).2 = .ok 30 "real-chrome-cdp") := by
  refine ⟨?_, ?_, ?_, by decide, by decide⟩
  · intro p m h1
    exact getSharedPage_eq_cdp w session connect p m h1
  · intro m p m2 h1 h2
    exact getSharedPage_eq_profile w session connect m p m2 h1 h2
  · intro m m2 s h1 h2 hts hse
    rw [getSharedPage_eq_record w session connect m m2 s h1 h2 hts hse]

/-- Witness for the amended C6: the precedence conjuncts applied to the
concrete two-tab world. -/
theorem getSharedPage_precedence_amended_witness :
    getSharedPage wC6 (some "mail") none = (wC6, .ok 30 "real-chrome-cdp") := by
  exact (getSharedPage_precedence_amended wC6 (some "mail") none).1
    30 "Using tab: https://example.com/home" (by decide)

end PlaywrightWS
